import Mathlib

/-!
Verification of the checkpoint and frame-versioning engine of Project
Greenlight (`src/greenlight/core/checkpoints.py` together with the
checkpoint data models of `src/greenlight/core/models.py`).

The file system is embedded structurally: each field of `ProjState`
mirrors one region of the on-disk layout used by `CheckpointService`.
File contents are abstracted as strings (`Content`); `datetime.now()`
values are abstracted as a `Nat` tick passed in by the caller, and the
`strftime` timestamp strings and `uuid4` prefixes drawn by the code are
passed in as explicit string arguments (the code's only use of them is
as fresh names).  Python `float` (`continuity_score`) is modelled as an
exact rational; no claim depends on floating-point rounding.
`json.loads` of the prompts manifest followed by `len(...)` is modelled
as an explicit partial function argument `parse : Content → Option Nat`
(`none` models the exception path).
-/

set_option autoImplicit false

namespace Greenlight

abbrev Content := String

/-- Does `pat` occur at the head of `s`? -/
def charsHavePref (pat s : List Char) : Bool :=
  match pat, s with
  | [], _ => true
  | _ :: _, [] => false
  | a :: ps, b :: ss => a = b && charsHavePref ps ss

/-- Does `pat` occur contiguously anywhere in `s`? -/
def charsContain (s pat : List Char) : Bool :=
  match s with
  | [] => charsHavePref pat []
  | c :: rest => charsHavePref pat (c :: rest) || charsContain rest pat

/-- Substring containment, modelling Python's `in` operator on strings. -/
def strContains (s pat : String) : Bool :=
  charsContain s.data pat.data

/-- First-match lookup in an association list keyed by `String`
(a directory listing: file name to file content). -/
def assocGet (l : List (String × Content)) (k : String) : Option Content :=
  (l.find? (fun p => p.1 = k)).map (fun p => p.2)

/-- Write (`shutil.copy2` target semantics): overwrite the entry if the
name exists, else append the new file at the end of the listing. -/
def assocSet (l : List (String × Content)) (k : String) (v : Content) :
    List (String × Content) :=
  if l.any (fun p => p.1 = k) then
    l.map (fun p => if p.1 = k then (k, v) else p)
  else
    l ++ [(k, v)]

/-- Embedding of `CheckpointType` from `models.py`: AUTO or MANUAL. -/
inductive CheckpointType where
  | auto
  | manual
deriving DecidableEq, Repr

/-- Embedding of the `Checkpoint` record of `models.py`. -/
structure Checkpoint where
  checkpoint_id : String
  name : String
  description : String
  created_at : Nat
  checkpoint_type : CheckpointType
  files_archived : List String
  frames_archived : Nat
  total_frames : Nat
  total_scenes : Nat
  file_size_bytes : Nat
deriving DecidableEq, Repr

/-- Embedding of the `FrameVersion` record of `models.py`. -/
structure FrameVersion where
  version_id : String
  frame_id : String
  iteration : Nat
  created_at : Nat
  image_path : String
  thumbnail_path : Option String
  healing_notes : String
  continuity_score : Rat
  file_size_bytes : Nat
  prompt_snapshot : String
deriving DecidableEq, Repr

/-- Embedding of the `CheckpointIndex` record of `models.py`.  The Python dict
`frame_versions` is an insertion-ordered map with unique keys; it is
embedded as an association list. -/
structure CheckpointIndex where
  project_path : String
  checkpoints : List Checkpoint
  frame_versions : List (String × List FrameVersion)
  last_updated : Nat
deriving DecidableEq, Repr

/-- Lookup `index.frame_versions.get(frame_id, [])`. -/
def dictGet (d : List (String × List FrameVersion)) (k : String) :
    List FrameVersion :=
  match d.find? (fun p => p.1 = k) with
  | some p => p.2
  | none => []

/-- Update `if frame_id not in index.frame_versions: ... = []` followed by
`index.frame_versions[frame_id].append(version)`. -/
def dictAppend (d : List (String × List FrameVersion)) (k : String)
    (v : FrameVersion) : List (String × List FrameVersion) :=
  if d.any (fun p => p.1 = k) then
    d.map (fun p => if p.1 = k then (p.1, p.2 ++ [v]) else p)
  else
    d ++ [(k, [v])]

/-- The live Project Artifact Directory.  The five `Option Content`
fields are the fixed artifact paths of `CHECKPOINT_FILES`
(`world_bible/world_config.json`, `outlines/outline_variants.json`,
`outlines/confirmed_outline.json`, `storyboard/visual_script.json`,
`storyboard/prompts.json`); `generated` lists
`storyboard_output/generated/{frame_id}.png` keyed by stem, and
`backups` lists `storyboard_output/generated/backups/` keyed by stem. -/
structure ArtifactDir where
  world_config : Option Content
  outline_variants : Option Content
  confirmed_outline : Option Content
  visual_script : Option Content
  prompts : Option Content
  generated : List (String × Content)
  backups : List (String × Content)
deriving DecidableEq, Repr

/-- One `checkpoints/cp_{timestamp}_{id}/` folder: the copied artifact
files by basename, the optional `frames/` subfolder (a directory
listing keyed by stem; names inside one directory are unique), and the
`manifest.json` (kept in parsed form, the serialization being
faithful). -/
structure CheckpointFolder where
  name : String
  world_config : Option Content
  outline_variants : Option Content
  confirmed_outline : Option Content
  visual_script : Option Content
  prompts : Option Content
  frames : Option (List (String × Content))
  manifest : Option Checkpoint
deriving DecidableEq, Repr

/-- The whole observable on-disk state of one project, as touched by
`CheckpointService`.  `frameVersionFiles` is keyed by project-relative
path (`checkpoints/frame_versions/{frame_id}/{name}.png`), `thumbFiles`
by `checkpoints/thumbnails/{version_id}.jpg`.  `indexFile` is the
content of `checkpoints/checkpoint_index.json`, kept in parsed form.
`dirs` tracks the directories created under the `checkpoints/` tree
(live-side directories are not tracked; no claim depends on them). -/
structure ProjState where
  projectPath : String
  artifacts : ArtifactDir
  store : List CheckpointFolder
  frameVersionFiles : List (String × Content)
  thumbFiles : List (String × Content)
  indexFile : Option CheckpointIndex
  dirs : List String
deriving DecidableEq, Repr

/-- Operation `mkdir(parents=True, exist_ok=True)` on the tracked tree. -/
def insertDir (ds : List String) (d : String) : List String :=
  if d ∈ ds then ds else ds ++ [d]

/-- Embedding of `_ensure_dirs`: creates `checkpoints/` and `checkpoints/thumbnails/`. -/
def ensureDirs (ds : List String) : List String :=
  insertDir (insertDir ds "checkpoints") "checkpoints/thumbnails"

/-- Embedding of `_load_index`: the parsed index file if present, else a fresh empty
index for this project (the corrupt-file branch also yields the fresh
index; an unparseable file is indistinguishable from an absent one in
this embedding). -/
def load_index (s : ProjState) (now : Nat) : CheckpointIndex :=
  match s.indexFile with
  | some idx => idx
  | none =>
      { project_path := s.projectPath
        checkpoints := []
        frame_versions := []
        last_updated := now }

/-- Embedding of `_save_index`: ensures directories, sets `last_updated`, writes the
serialized index over `checkpoints/checkpoint_index.json` (state view;
the write discipline itself is modelled by `save_index_ops` below). -/
def save_index (s : ProjState) (idx : CheckpointIndex) (now : Nat) :
    ProjState :=
  { s with
      dirs := ensureDirs s.dirs
      indexFile := some { idx with last_updated := now } }

/-- One copy step of the `CHECKPOINT_FILES` loop of `create_checkpoint`:
a source that exists is copied (contributing its relative path to
`files_archived` and its size to the total); a missing source is
skipped. -/
def copyArtifact (src : Option Content) (rel : String) :
    List String × Nat × Option Content :=
  match src with
  | some c => ([rel], c.length, some c)
  | none => ([], 0, none)

/-- Embedding of `int(frame_id.split(".")[0])` — the scene number of a frame identifier. -/
def scene_of (fid : String) : Option Int :=
  match (fid.splitOn ".").head? with
  | some s => s.toInt?
  | none => none

/-- The frame images archived by `create_checkpoint` when
`include_images` holds: every `*.png` of the generated directory whose
name does not start with `backups`. -/
def archivedFrames (a : ArtifactDir) (include_images : Bool) :
    Option (List (String × Content)) :=
  if include_images then
    some (a.generated.filter (fun p => !(p.1.startsWith "backups")))
  else
    none

/-- The `Checkpoint` record built by `create_checkpoint` from the live
artifact directory. -/
def mkCheckpoint (parse : Content → Option Nat) (a : ArtifactDir)
    (name description : String) (ctype : CheckpointType)
    (include_images : Bool) (cpId : String) (now : Nat) : Checkpoint :=
  let w := copyArtifact a.world_config "world_bible/world_config.json"
  let ov := copyArtifact a.outline_variants "outlines/outline_variants.json"
  let co := copyArtifact a.confirmed_outline "outlines/confirmed_outline.json"
  let vs := copyArtifact a.visual_script "storyboard/visual_script.json"
  let pr := copyArtifact a.prompts "storyboard/prompts.json"
  let frames := (archivedFrames a include_images).getD []
  let frames_archived := frames.length
  let framesSize := (frames.map (fun p => p.2.length)).sum
  let total_scenes := (frames.filterMap (fun p => scene_of p.1)).dedup.length
  let total_frames :=
    match a.prompts with
    | some c =>
        match parse c with
        | some n => n
        | none => frames_archived
    | none => 0
  { checkpoint_id := cpId
    name := name
    description := description
    created_at := now
    checkpoint_type := ctype
    files_archived := w.1 ++ ov.1 ++ co.1 ++ vs.1 ++ pr.1
    frames_archived := frames_archived
    total_frames := total_frames
    total_scenes := total_scenes
    file_size_bytes :=
      w.2.1 + ov.2.1 + co.2.1 + vs.2.1 + pr.2.1 + framesSize }

/-- The on-disk folder written by `create_checkpoint`: artifact copies
by basename, the optional `frames/` subfolder, and `manifest.json`. -/
def mkFolder (parse : Content → Option Nat) (a : ArtifactDir)
    (name description : String) (ctype : CheckpointType)
    (include_images : Bool) (cpId ts : String) (now : Nat) :
    CheckpointFolder :=
  { name := "cp_" ++ ts ++ "_" ++ cpId
    world_config := a.world_config
    outline_variants := a.outline_variants
    confirmed_outline := a.confirmed_outline
    visual_script := a.visual_script
    prompts := a.prompts
    frames := archivedFrames a include_images
    manifest :=
      some (mkCheckpoint parse a name description ctype include_images cpId now) }

/-- Embedding of `create_checkpoint`: ensures directories, makes the checkpoint
folder, copies the existing `CHECKPOINT_FILES`, optionally copies the
generated frame images (skipping names starting with `backups`), writes
the manifest, appends the new `Checkpoint` to the loaded index and
saves it.  `cpId` is the drawn `uuid4` prefix, `ts` the `strftime`
timestamp. -/
def create_checkpoint (parse : Content → Option Nat) (s : ProjState)
    (name description : String) (ctype : CheckpointType)
    (include_images : Bool) (cpId ts : String) (now : Nat) :
    Checkpoint × ProjState :=
  let cp := mkCheckpoint parse s.artifacts name description ctype
    include_images cpId now
  let folder := mkFolder parse s.artifacts name description ctype
    include_images cpId ts now
  let folderDir := "checkpoints/" ++ folder.name
  let ds := insertDir (ensureDirs s.dirs) folderDir
  let ds := if include_images then insertDir ds (folderDir ++ "/frames") else ds
  let idx := load_index s now
  (cp,
    save_index
      { s with store := s.store ++ [folder], dirs := ds }
      { idx with checkpoints := idx.checkpoints ++ [cp] }
      now)

/-- Result dict of `restore_checkpoint` / `delete_checkpoint`. -/
structure OpResult where
  success : Bool
  error : Option String := none
  message : Option String := none
  checkpoint : Option Checkpoint := none
deriving DecidableEq, Repr

/-- The `checkpoint_id in d.name` search over the checkpoint folders, first
match in iteration order (the two fixed non-checkpoint subdirectories
`thumbnails` and `frame_versions` hold no `cp_*` folders and are
tracked in `dirs`, not `store`). -/
def findFolder (store : List CheckpointFolder) (cpId : String) :
    Option CheckpointFolder :=
  store.find? (fun d => strContains d.name cpId)

/-- Step (2) of the restore: each known artifact basename present in
the checkpoint folder is copied over the live path; absent ones are
skipped, leaving the live file as it is. -/
def overrideFile (src dst : Option Content) : Option Content :=
  match src with
  | some c => some c
  | none => dst

/-- The artifact-file part of `restore_checkpoint`. -/
def restoreArtifacts (dir : CheckpointFolder) (a : ArtifactDir) :
    ArtifactDir :=
  { a with
      world_config := overrideFile dir.world_config a.world_config
      outline_variants := overrideFile dir.outline_variants a.outline_variants
      confirmed_outline := overrideFile dir.confirmed_outline a.confirmed_outline
      visual_script := overrideFile dir.visual_script a.visual_script
      prompts := overrideFile dir.prompts a.prompts }

/-- The frame part of `restore_checkpoint`: if the checkpoint archived
a `frames/` folder, every live `*.png` is moved into `backups/` under a
`{stem}_prerestore_{timestamp}.png` name (`shutil.move` overwrites a
same-named target), then the archived listing is copied into the
emptied live directory. -/
def restoreFrames (dir : CheckpointFolder) (backupTs : String)
    (a : ArtifactDir) : ArtifactDir :=
  match dir.frames with
  | none => a
  | some archived =>
      let moved := a.generated.map
        (fun p => (p.1 ++ "_prerestore_" ++ backupTs, p.2))
      { a with
          generated := archived
          backups := moved.foldl (fun b p => assocSet b p.1 p.2) a.backups }

/-- Embedding of `restore_checkpoint`: loads the index, finds the checkpoint entry
(else NotFound), finds the first folder whose name contains the id
(else directory-not-found), optionally creates an Auto checkpoint of
the current state (drawing `autoId`/`autoTs`), then restores artifact
files and frame images from the folder. -/
def restore_checkpoint (parse : Content → Option Nat) (s : ProjState)
    (cpId : String) (archive_current : Bool)
    (autoId autoTs backupTs : String) (now : Nat) :
    OpResult × ProjState :=
  let idx := load_index s now
  match idx.checkpoints.find? (fun cp => cp.checkpoint_id = cpId) with
  | none =>
      ({ success := false
         error := some ("Checkpoint " ++ cpId ++ " not found") }, s)
  | some cp =>
      match findFolder s.store cpId with
      | none => ({ success := false, error := some "Checkpoint directory not found" }, s)
      | some dir =>
          let s :=
            if archive_current then
              (create_checkpoint parse s
                ("Before restore to '" ++ cp.name ++ "'")
                "Auto-created before restore"
                CheckpointType.auto true autoId autoTs now).2
            else s
          let a := restoreFrames dir backupTs (restoreArtifacts dir s.artifacts)
          ({ success := true
             message := some ("Restored to checkpoint '" ++ cp.name ++ "'")
             checkpoint := some cp },
           { s with artifacts := a })

/-- The `enumerate`/`pop` loop of `delete_checkpoint`: removes the
first index entry with the given id, returning it. -/
def popFirst (l : List Checkpoint) (cpId : String) :
    Option Checkpoint × List Checkpoint :=
  match l with
  | [] => (none, [])
  | cp :: rest =>
      if cp.checkpoint_id = cpId then (some cp, rest)
      else
        let r := popFirst rest cpId
        (r.1, cp :: r.2)

/-- The `rmtree` loop of `delete_checkpoint`: removes the first folder
whose name contains the id (then breaks). -/
def removeFirstFolder (store : List CheckpointFolder) (cpId : String) :
    List CheckpointFolder :=
  match store with
  | [] => []
  | d :: rest =>
      if strContains d.name cpId then rest
      else d :: removeFirstFolder rest cpId

/-- Helper: `rmtree` also removes the folder's entries from the tracked
directory tree. -/
def removeFolderDirs (ds : List String) (store : List CheckpointFolder)
    (cpId : String) : List String :=
  match findFolder store cpId with
  | none => ds
  | some f =>
      ds.filter (fun d =>
        !(d = "checkpoints/" ++ f.name
          || d.startsWith ("checkpoints/" ++ f.name ++ "/")))

/-- Embedding of `delete_checkpoint`: loads the index, pops the first matching entry
(failing NotFound without touching the disk when absent), removes the
first folder whose name contains the id if any, and saves the index. -/
def delete_checkpoint (s : ProjState) (cpId : String) (now : Nat) :
    OpResult × ProjState :=
  let idx := load_index s now
  let fr := popFirst idx.checkpoints cpId
  match fr.1 with
  | none =>
      ({ success := false
         error := some ("Checkpoint " ++ cpId ++ " not found") }, s)
  | some cp =>
      let s :=
        { s with
            store := removeFirstFolder s.store cpId
            dirs := removeFolderDirs s.dirs s.store cpId }
      ({ success := true
         message := some ("Deleted checkpoint '" ++ cp.name ++ "'") },
       save_index s { idx with checkpoints := fr.2 } now)

/-- The thumbnail bytes produced by `_generate_thumbnail` (the PIL
downsampling is abstracted; the embedding takes the always-successful
branch, and no claim reads thumbnail content). -/
def thumbBytes (c : Content) : Content :=
  "thumb:" ++ c

/-- Embedding of `archive_frame`: ensures directories; if the live image is missing,
returns no version with nothing else touched; otherwise computes
`iteration` as (existing version count) + 1, copies the live image into
`checkpoints/frame_versions/{frame_id}/` under an iteration- and
timestamp-qualified name, generates a thumbnail, appends the new
`FrameVersion` to the index and saves it.  `vId` is the drawn `uuid4`
prefix, `ts` the `strftime` timestamp. -/
def archive_frame (s : ProjState) (fid healing_notes : String)
    (score : Rat) (prompt : String) (vId ts : String) (now : Nat) :
    Option FrameVersion × ProjState :=
  let s := { s with dirs := ensureDirs s.dirs }
  match assocGet s.artifacts.generated fid with
  | none => (none, s)
  | some img =>
      let idx := load_index s now
      let versions := dictGet idx.frame_versions fid
      let iteration := versions.length + 1
      let versionsDir := "checkpoints/frame_versions/" ++ fid
      let ds := insertDir (insertDir s.dirs "checkpoints/frame_versions") versionsDir
      let archivedPath :=
        versionsDir ++ "/" ++ fid ++ "_v" ++ toString iteration ++ "_" ++ ts ++ ".png"
      let thumbPath := "checkpoints/thumbnails/" ++ vId ++ ".jpg"
      let v : FrameVersion :=
        { version_id := vId
          frame_id := fid
          iteration := iteration
          created_at := now
          image_path := archivedPath
          thumbnail_path := some thumbPath
          healing_notes := healing_notes
          continuity_score := score
          file_size_bytes := img.length
          prompt_snapshot := prompt }
      (some v,
        save_index
          { s with
              dirs := ds
              frameVersionFiles := assocSet s.frameVersionFiles archivedPath img
              thumbFiles := assocSet s.thumbFiles thumbPath (thumbBytes img) }
          { idx with frame_versions := dictAppend idx.frame_versions fid v }
          now)

/-- The `FrameVersion` record `archive_frame` builds when the live
image of `fid` holds `img` (a named view of the record constructed in
`archive_frame`; the characterization lemma below checks the two amount
to the same thing). -/
def liveVersion (s : ProjState) (fid notes : String) (score : Rat)
    (prompt vId ts : String) (now : Nat) (img : Content) : FrameVersion :=
  let iteration := (dictGet (load_index s now).frame_versions fid).length + 1
  { version_id := vId
    frame_id := fid
    iteration := iteration
    created_at := now
    image_path := "checkpoints/frame_versions/" ++ fid ++ "/" ++ fid
      ++ "_v" ++ toString iteration ++ "_" ++ ts ++ ".png"
    thumbnail_path := some ("checkpoints/thumbnails/" ++ vId ++ ".jpg")
    healing_notes := notes
    continuity_score := score
    file_size_bytes := img.length
    prompt_snapshot := prompt }

/-- Result dict of `restore_frame_version`. -/
structure FrameOpResult where
  success : Bool
  error : Option String := none
  message : Option String := none
  version : Option FrameVersion := none
deriving DecidableEq, Repr

/-- Embedding of `restore_frame_version`: looks the version up in the loaded index
(NotFound when absent), checks its archived file exists (dangling
reference otherwise), archives the current live image as a safety-net
version (silently a no-op when the live image is missing), then copies
the archived image over the live path.  The copy re-reads the archived
path after the safety archival; the file still exists there since
`archive_frame` only adds files, so the default content is dead code. -/
def restore_frame_version (s : ProjState) (fid vId : String)
    (safetyVId safetyTs : String) (now : Nat) :
    FrameOpResult × ProjState :=
  let idx := load_index s now
  let versions := dictGet idx.frame_versions fid
  match versions.find? (fun v => v.version_id = vId) with
  | none =>
      ({ success := false
         error := some ("Version " ++ vId ++ " not found") }, s)
  | some v =>
      match assocGet s.frameVersionFiles v.image_path with
      | none => ({ success := false, error := some "Archived image not found" }, s)
      | some c =>
          let s1 := (archive_frame s fid
            ("Before restore to v" ++ toString v.iteration) 0 ""
            safetyVId safetyTs now).2
          let c1 := (assocGet s1.frameVersionFiles v.image_path).getD c
          ({ success := true
             message := some ("Restored " ++ fid ++ " to version " ++ toString v.iteration)
             version := some v },
           { s1 with
               artifacts :=
                 { s1.artifacts with
                     generated := assocSet s1.artifacts.generated fid c1 } })

/-- Embedding of `get_frame_versions`. -/
def get_frame_versions (s : ProjState) (fid : String) (now : Nat) :
    List FrameVersion :=
  dictGet (load_index s now).frame_versions fid

/-- The version history of a frame as recorded on disk (`last_updated`
plays no role in `frame_versions`, so the tick is irrelevant here). -/
def versionsOf (s : ProjState) (fid : String) : List FrameVersion :=
  get_frame_versions s fid 0

/-- One `archive_frame` invocation: its caller-supplied arguments plus
the fresh uuid prefix, timestamp string and clock tick drawn during the
call. -/
structure ArchiveCall where
  frame_id : String
  healing_notes : String
  score : Rat
  prompt : String
  vId : String
  ts : String
  now : Nat
deriving DecidableEq, Repr

/-- The state after one `archive_frame` call. -/
def archiveStep (s : ProjState) (c : ArchiveCall) : ProjState :=
  (archive_frame s c.frame_id c.healing_notes c.score c.prompt
    c.vId c.ts c.now).2

/-- The state after a sequence of `archive_frame` calls. -/
def archiveRun (s : ProjState) (calls : List ArchiveCall) : ProjState :=
  calls.foldl archiveStep s

/-- The live project state the round-trip claim talks about: the
artifact JSON files and the live frame images (backups, the checkpoint
store and the index are not part of it). -/
structure LiveView where
  world_config : Option Content
  outline_variants : Option Content
  confirmed_outline : Option Content
  visual_script : Option Content
  prompts : Option Content
  generated : List (String × Content)
deriving DecidableEq, Repr

/-- Project the live view out of an artifact directory. -/
def liveView (a : ArtifactDir) : LiveView :=
  { world_config := a.world_config
    outline_variants := a.outline_variants
    confirmed_outline := a.confirmed_outline
    visual_script := a.visual_script
    prompts := a.prompts
    generated := a.generated }

/-!
Trace-level view of `_save_index`.  The state-level `save_index` above
abstracts the file content; this view records the individual
file-system operations the function performs, which is what the
crash-atomicity claim is about.
-/

/-- Primitive file-system operations performed by the service. -/
inductive FileOp where
  | mkdirp (path : String)
  | writeFile (path : String) (content : String)
  | renameFile (src dest : String)
deriving DecidableEq, Repr

/-- Stand-in for `model_dump_json` (pretty-printing abstracted; the
claim only needs that the full index value is serialized). -/
def serializeIndex (idx : CheckpointIndex) : String :=
  reprStr idx

/-- Project-relative path of the index file. -/
def indexFilePath : String :=
  "checkpoints/checkpoint_index.json"

/-- The operation trace of `_save_index`: `_ensure_dirs` makes the two
directories, `index.last_updated = datetime.now()` refreshes the
timestamp, and `write_text` writes the serialized index directly over
the index path. -/
def save_index_ops (idx : CheckpointIndex) (now : Nat) : List FileOp :=
  [ FileOp.mkdirp "checkpoints",
    FileOp.mkdirp "checkpoints/thumbnails",
    FileOp.writeFile indexFilePath
      (serializeIndex { idx with last_updated := now }) ]

/-- A trace writes the target path in place (so a crash during that
write can leave a half-written target). -/
def writesDirectlyTo (ops : List FileOp) (target : String) : Bool :=
  ops.any (fun op =>
    match op with
    | FileOp.writeFile p _ => p = target
    | _ => false)

/-- Modelled from the spec: the write-temp-then-rename discipline — a
trace follows it for `target` when it never writes `target` in place
and produces it by renaming some other file onto it. -/
def usesTempThenRename (ops : List FileOp) (target : String) : Bool :=
  !writesDirectlyTo ops target &&
    ops.any (fun op =>
      match op with
      | FileOp.renameFile _ d => d = target
      | _ => false)

/-!  Sample concrete states used by witnesses and counterexamples.  -/

/-- An empty project: nothing generated yet, no index on disk. -/
def emptyState : ProjState :=
  { projectPath := "proj"
    artifacts :=
      { world_config := none
        outline_variants := none
        confirmed_outline := none
        visual_script := none
        prompts := none
        generated := []
        backups := [] }
    store := []
    frameVersionFiles := []
    thumbFiles := []
    indexFile := none
    dirs := [] }

/-- An empty index value. -/
def emptyIndex : CheckpointIndex :=
  { project_path := "proj"
    checkpoints := []
    frame_versions := []
    last_updated := 0 }

/-- A project with one live frame image and no prompts manifest. -/
def oneFrameState : ProjState :=
  { emptyState with
      artifacts := { emptyState.artifacts with
        generated := [("1.1.cA", "img-one")] } }

/-- An empty on-disk checkpoint folder with the given name. -/
def bareFolder (nm : String) : CheckpointFolder :=
  { name := nm
    world_config := none
    outline_variants := none
    confirmed_outline := none
    visual_script := none
    prompts := none
    frames := none
    manifest := none }

/-- A project whose store holds one orphan checkpoint folder that has
no index entry. -/
def orphanFolderState : ProjState :=
  { emptyState with
      store := [bareFolder "cp_20250101_000000_abcd1111"]
      indexFile := some emptyIndex
      dirs := ["checkpoints", "checkpoints/thumbnails",
               "checkpoints/cp_20250101_000000_abcd1111"] }

/-- A minimal manual checkpoint record with id `e1`. -/
def sampleCp : Checkpoint :=
  { checkpoint_id := "e1"
    name := "v1"
    description := ""
    created_at := 0
    checkpoint_type := CheckpointType.manual
    files_archived := []
    frames_archived := 0
    total_frames := 0
    total_scenes := 0
    file_size_bytes := 0 }

/-- A project whose index holds one checkpoint entry (`e1`) whose
on-disk folder is missing. -/
def entryOnlyState : ProjState :=
  { emptyState with
      indexFile := some { emptyIndex with checkpoints := [sampleCp] } }

/-- A demo call sequence: two calls for the live frame `1.1.cA` with a
call for a non-existent frame interleaved. -/
def callsDemo : List ArchiveCall :=
  [ { frame_id := "1.1.cA", healing_notes := "n1", score := 0,
      prompt := "p1", vId := "u1", ts := "t1", now := 1 },
    { frame_id := "9.9.xX", healing_notes := "n2", score := 0,
      prompt := "p2", vId := "u2", ts := "t2", now := 2 },
    { frame_id := "1.1.cA", healing_notes := "n3", score := 0,
      prompt := "p3", vId := "u3", ts := "t3", now := 3 } ]

/-- A frame version record for a frame whose live image was deleted. -/
def c10Version : FrameVersion :=
  { version_id := "v7"
    frame_id := "1.1.cA"
    iteration := 1
    created_at := 0
    image_path := "checkpoints/frame_versions/1.1.cA/1.1.cA_v1_t0.png"
    thumbnail_path := none
    healing_notes := ""
    continuity_score := 0
    file_size_bytes := 6
    prompt_snapshot := "" }

/-- A project holding one archived frame version whose live image is
gone. -/
def versionOnlyState : ProjState :=
  { emptyState with
      frameVersionFiles := [(c10Version.image_path, "oldimg")]
      indexFile := some { emptyIndex with
        frame_versions := [("1.1.cA", [c10Version])] } }

/-- A checkpoint folder whose capture contains a prompts manifest that
no longer exists live (the user deleted it after checkpointing). -/
def cexDirA : CheckpointFolder :=
  { name := "cp_20240101_000000_aaaa1111"
    world_config := none
    outline_variants := none
    confirmed_outline := none
    visual_script := none
    prompts := some "old-prompts"
    frames := some [("1.1.cA", "frameA")]
    manifest := none }

/-- The index entry for `cexDirA`. -/
def cexCpA : Checkpoint :=
  { checkpoint_id := "aaaa1111"
    name := "A"
    description := ""
    created_at := 0
    checkpoint_type := CheckpointType.manual
    files_archived := ["storyboard/prompts.json"]
    frames_archived := 1
    total_frames := 1
    total_scenes := 1
    file_size_bytes := 17 }

/-- A project where checkpoint A's folder holds `prompts.json` but the
live prompts manifest is absent. -/
def cexState : ProjState :=
  { projectPath := "proj"
    artifacts :=
      { world_config := some "w0"
        outline_variants := none
        confirmed_outline := none
        visual_script := none
        prompts := none
        generated := [("1.1.cA", "img0")]
        backups := [] }
    store := [cexDirA]
    frameVersionFiles := []
    thumbFiles := []
    indexFile := some
      { project_path := "proj"
        checkpoints := [cexCpA]
        frame_versions := []
        last_updated := 0 }
    dirs := ["checkpoints", "checkpoints/thumbnails",
             "checkpoints/cp_20240101_000000_aaaa1111"] }

/-- A checkpoint folder compatible with the amended C1 side conditions:
everything it captured still exists live. -/
def roundDirA : CheckpointFolder :=
  { name := "cp_20240101_000000_aaaa1111"
    world_config := none
    outline_variants := none
    confirmed_outline := none
    visual_script := none
    prompts := some "pa"
    frames := some [("2.2.cB", "frameA")]
    manifest := none }

/-- The index entry for `roundDirA`. -/
def roundCpA : Checkpoint :=
  { cexCpA with name := "A2" }

/-- A project satisfying the amended C1 side conditions: the live
prompts manifest exists, so A's captured prompts file shadows nothing. -/
def roundState : ProjState :=
  { cexState with
      artifacts := { cexState.artifacts with prompts := some "p0" }
      store := [roundDirA]
      indexFile := some
        { project_path := "proj"
          checkpoints := [roundCpA]
          frame_versions := []
          last_updated := 0 } }

/-!  Helper lemmas about the embedded container operations.  -/

theorem charsHavePref_append (p t : List Char) :
    charsHavePref p (p ++ t) = true := by
  induction p with
  | nil => rfl
  | cons a ps ih => simp [charsHavePref, ih]

theorem charsHavePref_self (p : List Char) : charsHavePref p p = true := by
  have h := charsHavePref_append p []
  simpa using h

theorem charsContain_of_head (p s : List Char)
    (h : charsHavePref p s = true) : charsContain s p = true := by
  cases s with
  | nil => simpa [charsContain] using h
  | cons c r => simp [charsContain, h]

theorem charsContain_append (y p : List Char) :
    charsContain (y ++ p) p = true := by
  induction y with
  | nil => exact charsContain_of_head p p (charsHavePref_self p)
  | cons c ys ih => simp [charsContain, ih]

/-- A drawn id is always found inside the folder name built from it. -/
theorem strContains_append_right (x pat : String) :
    strContains (x ++ pat) pat = true := by
  unfold strContains
  rw [String.data_append]
  exact charsContain_append x.data pat.data

theorem find?_mapSet_self (l : List (String × Content)) (k : String)
    (v : Content) (h : l.any (fun p => p.1 = k) = true) :
    (l.map (fun p => if p.1 = k then (k, v) else p)).find?
      (fun p => p.1 = k) = some (k, v) := by
  induction l with
  | nil => simp at h
  | cons a rest ih =>
      by_cases ha : a.1 = k
      · simp [List.find?, ha]
      · have hrest : rest.any (fun p => p.1 = k) = true := by
          simpa [List.any_cons, ha] using h
        simp [List.find?, ha, ih hrest]

theorem find?_mapSet_ne (l : List (String × Content)) (k k' : String)
    (v : Content) (hk : k' ≠ k) :
    (l.map (fun p => if p.1 = k then (k, v) else p)).find?
      (fun p => p.1 = k') = l.find? (fun p => p.1 = k') := by
  induction l with
  | nil => rfl
  | cons a rest ih =>
      by_cases ha : a.1 = k
      · have h1 : ¬ ((k, v).1 = k') := fun hc => hk hc.symm
        have h2 : ¬ (a.1 = k') := by
          rw [ha]; exact fun hc => hk hc.symm
        simp [List.find?, ha, h1, h2, ih]
      · simp only [List.map_cons, List.find?, if_neg ha, ih]

theorem assocGet_assocSet (l : List (String × Content)) (k k' : String)
    (v : Content) :
    assocGet (assocSet l k v) k'
      = if k' = k then some v else assocGet l k' := by
  unfold assocGet assocSet
  by_cases hany : l.any (fun p => p.1 = k) = true
  · rw [if_pos hany]
    by_cases hk : k' = k
    · rw [if_pos hk, hk, find?_mapSet_self l k v hany]
      rfl
    · rw [if_neg hk, find?_mapSet_ne l k k' v hk]
  · rw [if_neg hany, List.find?_append]
    have hnone : l.find? (fun p => p.1 = k) = none := by
      rw [List.find?_eq_none]
      intro x hx hc
      exact hany (List.any_eq_true.mpr ⟨x, hx, hc⟩)
    by_cases hk : k' = k
    · rw [hk]
      simp [hnone, List.find?]
    · have h1 : ¬ ((k, v).1 = k') := fun hc => hk hc.symm
      simp [List.find?, h1, hk]

theorem assocGet_assocSet_self (l : List (String × Content)) (k : String)
    (v : Content) : assocGet (assocSet l k v) k = some v := by
  simp [assocGet_assocSet]

/-- Writing content `c` anywhere never changes the answer of a lookup
that already reads `c`. -/
theorem assocGet_assocSet_same_content (l : List (String × Content))
    (k k' : String) (c : Content) (h : assocGet l k = some c) :
    assocGet (assocSet l k' c) k = some c := by
  rw [assocGet_assocSet]
  by_cases hk : k = k' <;> simp [hk, h]

theorem dfind_mapApp_self (d : List (String × List FrameVersion))
    (k : String) (v : FrameVersion) :
    (d.map (fun p => if p.1 = k then (p.1, p.2 ++ [v]) else p)).find?
      (fun p => p.1 = k)
      = (d.find? (fun p => p.1 = k)).map (fun p => (p.1, p.2 ++ [v])) := by
  induction d with
  | nil => rfl
  | cons a rest ih =>
      by_cases ha : a.1 = k
      · simp [List.find?, ha]
      · have hd : decide (a.1 = k) = false := by simp [ha]
        simp only [List.map_cons, List.find?, if_neg ha, hd, ih]

theorem dfind_mapApp_ne (d : List (String × List FrameVersion))
    (k k' : String) (v : FrameVersion) (hk : k' ≠ k) :
    (d.map (fun p => if p.1 = k then (p.1, p.2 ++ [v]) else p)).find?
      (fun p => p.1 = k')
      = d.find? (fun p => p.1 = k') := by
  induction d with
  | nil => rfl
  | cons a rest ih =>
      by_cases ha : a.1 = k
      · have h2 : ¬ a.1 = k' := by
          rw [ha]; exact fun hc => hk hc.symm
        have h3 : ¬ (k = k') := fun hc => hk hc.symm
        simp [List.find?, ha, h2, h3, ih]
      · have hd : decide (a.1 = k) = false := by simp [ha]
        simp only [List.map_cons, List.find?, if_neg ha, hd, ih]

theorem dictGet_dictAppend (d : List (String × List FrameVersion))
    (k k' : String) (v : FrameVersion) :
    dictGet (dictAppend d k v) k'
      = if k' = k then dictGet d k ++ [v] else dictGet d k' := by
  unfold dictGet dictAppend
  by_cases hany : d.any (fun p => p.1 = k) = true
  · rw [if_pos hany]
    by_cases hk : k' = k
    · rw [if_pos hk, hk, dfind_mapApp_self d k v]
      cases hfd : d.find? (fun p => p.1 = k) with
      | none =>
          exfalso
          obtain ⟨x, hx, hpx⟩ := List.any_eq_true.mp hany
          have : (d.find? (fun p => p.1 = k)).isSome :=
            List.find?_isSome.mpr ⟨x, hx, hpx⟩
          rw [hfd] at this
          simp at this
      | some p => simp
    · rw [if_neg hk, dfind_mapApp_ne d k k' v hk]
  · rw [if_neg hany, List.find?_append]
    have hnone : d.find? (fun p => p.1 = k) = none := by
      rw [List.find?_eq_none]
      intro x hx hc
      exact hany (List.any_eq_true.mpr ⟨x, hx, hc⟩)
    by_cases hk : k' = k
    · rw [hk]
      simp [hnone, List.find?]
    · have h1 : ¬ ((k, [v]).1 = k') := fun hc => hk hc.symm
      simp [List.find?, h1, hk]

theorem popFirst_fst (l : List Checkpoint) (cpId : String) :
    (popFirst l cpId).1 = l.find? (fun cp => cp.checkpoint_id = cpId) := by
  induction l with
  | nil => rfl
  | cons cp rest ih =>
      by_cases h : cp.checkpoint_id = cpId <;>
        simp [popFirst, List.find?, h, ih]

theorem popFirst_snd_no_match (l : List Checkpoint) (cpId : String)
    (h : l.countP (fun cp => cp.checkpoint_id = cpId) ≤ 1) :
    (popFirst l cpId).2.find? (fun cp => cp.checkpoint_id = cpId) = none := by
  induction l with
  | nil => rfl
  | cons cp rest ih =>
      by_cases hc : cp.checkpoint_id = cpId
      · have hr : rest.countP (fun c => c.checkpoint_id = cpId) = 0 := by
          have h2 := h
          simp only [List.countP_cons] at h2
          simp only [hc, decide_True, if_pos] at h2
          omega
        simp only [popFirst, if_pos hc]
        rw [List.find?_eq_none]
        intro x hx hxc
        have := List.countP_eq_zero.mp hr x hx
        exact absurd hxc this
      · have h' : rest.countP (fun c => c.checkpoint_id = cpId) ≤ 1 := by
          simpa [List.countP_cons, hc] using h
        simp [popFirst, hc, List.find?, ih h']

/-- Only `indexFile` and `projectPath` feed `load_index`; changing the
tracked directory set does not affect it. -/
@[simp] theorem load_index_update_dirs (s : ProjState) (d : List String)
    (now : Nat) : load_index { s with dirs := d } now = load_index s now :=
  rfl

theorem load_index_frame_versions (s : ProjState) (n m : Nat) :
    (load_index s n).frame_versions = (load_index s m).frame_versions := by
  unfold load_index
  cases s.indexFile <;> rfl

theorem versionsOf_eq_dictGet (s : ProjState) (fid : String) (now : Nat) :
    dictGet (load_index s now).frame_versions fid = versionsOf s fid := by
  unfold versionsOf get_frame_versions
  rw [load_index_frame_versions s now 0]

theorem versionsOf_save_index (s : ProjState) (idx : CheckpointIndex)
    (now : Nat) (fid : String) :
    versionsOf (save_index s idx now) fid = dictGet idx.frame_versions fid :=
  rfl

/-- When a frame is missing, `archive_frame` only ensures the two
top-level directories. -/
theorem archive_frame_of_missing (s : ProjState) (fid notes : String)
    (score : Rat) (prompt vId ts : String) (now : Nat)
    (h : assocGet s.artifacts.generated fid = none) :
    archive_frame s fid notes score prompt vId ts now
      = (none, { s with dirs := ensureDirs s.dirs }) := by
  unfold archive_frame
  simp [h]

/-- Characterization of a successful `archive_frame`. -/
theorem archive_frame_of_live (s : ProjState) (fid notes : String)
    (score : Rat) (prompt vId ts : String) (now : Nat) (img : Content)
    (h : assocGet s.artifacts.generated fid = some img) :
    archive_frame s fid notes score prompt vId ts now
      = (some (liveVersion s fid notes score prompt vId ts now img),
         save_index
           { s with
               dirs := insertDir
                 (insertDir (ensureDirs s.dirs) "checkpoints/frame_versions")
                 ("checkpoints/frame_versions/" ++ fid)
               frameVersionFiles := assocSet s.frameVersionFiles
                 (liveVersion s fid notes score prompt vId ts now img).image_path
                 img
               thumbFiles := assocSet s.thumbFiles
                 ("checkpoints/thumbnails/" ++ vId ++ ".jpg")
                 (thumbBytes img) }
           { load_index s now with
               frame_versions := dictAppend (load_index s now).frame_versions
                 fid (liveVersion s fid notes score prompt vId ts now img) }
           now) := by
  unfold archive_frame
  simp only [h]
  rfl

theorem archive_frame_artifacts (s : ProjState) (fid notes : String)
    (score : Rat) (prompt vId ts : String) (now : Nat) :
    (archive_frame s fid notes score prompt vId ts now).2.artifacts
      = s.artifacts := by
  cases h : assocGet s.artifacts.generated fid with
  | none => rw [archive_frame_of_missing s fid notes score prompt vId ts now h]
  | some img => rw [archive_frame_of_live s fid notes score prompt vId ts now img h]; rfl

theorem archive_frame_isSome (s : ProjState) (fid notes : String)
    (score : Rat) (prompt vId ts : String) (now : Nat)
    (h : (assocGet s.artifacts.generated fid).isSome = true) :
    ((archive_frame s fid notes score prompt vId ts now).1).isSome = true := by
  cases hg : assocGet s.artifacts.generated fid with
  | none => rw [hg] at h; cases h
  | some img =>
      rw [archive_frame_of_live s fid notes score prompt vId ts now img hg]
      rfl

theorem archive_frame_success_fields (s : ProjState) (fid notes : String)
    (score : Rat) (prompt vId ts : String) (now : Nat) (v : FrameVersion)
    (hv : (archive_frame s fid notes score prompt vId ts now).1 = some v) :
    v.version_id = vId ∧
    v.iteration = (versionsOf s fid).length + 1 ∧
    assocGet ((archive_frame s fid notes score prompt vId ts now).2).frameVersionFiles
        v.image_path = assocGet s.artifacts.generated fid ∧
    versionsOf (archive_frame s fid notes score prompt vId ts now).2 fid
      = versionsOf s fid ++ [v] := by
  cases h : assocGet s.artifacts.generated fid with
  | none =>
      rw [archive_frame_of_missing s fid notes score prompt vId ts now h] at hv
      cases hv
  | some img =>
      have hch := archive_frame_of_live s fid notes score prompt vId ts now img h
      rw [hch] at hv
      rw [Option.some.injEq] at hv
      subst hv
      refine ⟨rfl, ?_, ?_, ?_⟩
      · show (dictGet (load_index s now).frame_versions fid).length + 1 = _
        rw [versionsOf_eq_dictGet]
      · rw [hch]
        show assocGet (assocSet s.frameVersionFiles _ img) _ = _
        rw [assocGet_assocSet_self]
      · rw [hch, versionsOf_save_index]
        show dictGet (dictAppend (load_index s now).frame_versions fid _) fid = _
        rw [dictGet_dictAppend, if_pos rfl, versionsOf_eq_dictGet]

theorem archive_frame_versionsOf_ne (s : ProjState) (g notes : String)
    (score : Rat) (prompt vId ts : String) (now : Nat) (fid : String)
    (hne : g ≠ fid) :
    versionsOf (archive_frame s g notes score prompt vId ts now).2 fid
      = versionsOf s fid := by
  cases h : assocGet s.artifacts.generated g with
  | none => rw [archive_frame_of_missing s g notes score prompt vId ts now h]; rfl
  | some img =>
      rw [archive_frame_of_live s g notes score prompt vId ts now img h]
      show versionsOf (save_index _ _ _) fid = _
      rw [versionsOf_save_index]
      show dictGet (dictAppend (load_index s now).frame_versions g _) fid = _
      rw [dictGet_dictAppend, if_neg (fun hc => hne hc.symm), versionsOf_eq_dictGet]

theorem archive_frame_preserves_content (s : ProjState) (fid notes : String)
    (score : Rat) (prompt vId ts : String) (now : Nat) (k : String)
    (c : Content) (hk : assocGet s.frameVersionFiles k = some c)
    (himg : assocGet s.artifacts.generated fid = some c) :
    assocGet ((archive_frame s fid notes score prompt vId ts now).2).frameVersionFiles
      k = some c := by
  rw [archive_frame_of_live s fid notes score prompt vId ts now c himg]
  show assocGet (assocSet s.frameVersionFiles _ c) k = some c
  exact assocGet_assocSet_same_content s.frameVersionFiles k _ c hk

theorem archiveRun_iterations (calls : List ArchiveCall) (s : ProjState)
    (fid : String) (k : Nat)
    (hbase : (versionsOf s fid).map (fun v => v.iteration) = List.range' 1 k)
    (hlive : (assocGet s.artifacts.generated fid).isSome = true) :
    (versionsOf (archiveRun s calls) fid).map (fun v => v.iteration)
      = List.range' 1 (k + calls.countP (fun c => c.frame_id = fid)) := by
  induction calls generalizing s k with
  | nil => simpa [archiveRun] using hbase
  | cons c rest ih =>
      have hstep : archiveRun s (c :: rest) = archiveRun (archiveStep s c) rest := rfl
      have hart := archive_frame_artifacts s c.frame_id c.healing_notes
        c.score c.prompt c.vId c.ts c.now
      have hlive' : (assocGet (archiveStep s c).artifacts.generated fid).isSome = true := by
        unfold archiveStep
        rw [hart]
        exact hlive
      by_cases hc : c.frame_id = fid
      · subst hc
        obtain ⟨v, hv⟩ := Option.isSome_iff_exists.mp
          (archive_frame_isSome s c.frame_id c.healing_notes c.score c.prompt
            c.vId c.ts c.now hlive)
        obtain ⟨hvid, hiter, hfile, hvers⟩ := archive_frame_success_fields
          s c.frame_id c.healing_notes c.score c.prompt c.vId c.ts c.now v hv
        have hlen : (versionsOf s c.frame_id).length = k := by
          have := congrArg List.length hbase
          simpa using this
        have hbase' : (versionsOf (archiveStep s c) c.frame_id).map
            (fun v => v.iteration) = List.range' 1 (k + 1) := by
          unfold archiveStep
          rw [hvers, List.map_append, hbase]
          simp only [List.map_cons, List.map_nil]
          rw [hiter, hlen, List.range'_concat]
          simp [Nat.add_comm]
        rw [hstep, ih (archiveStep s c) (k + 1) hbase' hlive']
        have hcnt : (c :: rest).countP (fun d => d.frame_id = c.frame_id)
            = rest.countP (fun d => d.frame_id = c.frame_id) + 1 := by
          rw [List.countP_cons]
          simp
        rw [hcnt]
        congr 1
        omega
      · have hvers : versionsOf (archiveStep s c) fid = versionsOf s fid := by
          unfold archiveStep
          exact archive_frame_versionsOf_ne s c.frame_id c.healing_notes
            c.score c.prompt c.vId c.ts c.now fid hc
        have hbase' : (versionsOf (archiveStep s c) fid).map (fun v => v.iteration)
            = List.range' 1 k := by
          rw [hvers]; exact hbase
        rw [hstep, ih (archiveStep s c) k hbase' hlive']
        have hcnt : (c :: rest).countP (fun d => d.frame_id = fid)
            = rest.countP (fun d => d.frame_id = fid) := by
          rw [List.countP_cons]
          simp [hc]
        rw [hcnt]

/-!  Lemmas for the checkpoint restore round trip.  -/

@[simp] theorem load_index_update_artifacts (s : ProjState) (a : ArtifactDir)
    (now : Nat) : load_index { s with artifacts := a } now = load_index s now :=
  rfl

theorem mkCheckpoint_id (parse : Content → Option Nat) (a : ArtifactDir)
    (name description : String) (ctype : CheckpointType)
    (include_images : Bool) (cpId : String) (now : Nat) :
    (mkCheckpoint parse a name description ctype include_images cpId
      now).checkpoint_id = cpId :=
  rfl

theorem mkFolder_name (parse : Content → Option Nat) (a : ArtifactDir)
    (name description : String) (ctype : CheckpointType)
    (include_images : Bool) (cpId ts : String) (now : Nat) :
    (mkFolder parse a name description ctype include_images cpId ts
      now).name = "cp_" ++ ts ++ "_" ++ cpId :=
  rfl

theorem restoreFrames_keeps_world_config (dir : CheckpointFolder)
    (ts : String) (a : ArtifactDir) :
    (restoreFrames dir ts a).world_config = a.world_config := by
  unfold restoreFrames
  cases dir.frames <;> rfl

theorem restoreFrames_keeps_outline_variants (dir : CheckpointFolder)
    (ts : String) (a : ArtifactDir) :
    (restoreFrames dir ts a).outline_variants = a.outline_variants := by
  unfold restoreFrames
  cases dir.frames <;> rfl

theorem restoreFrames_keeps_confirmed_outline (dir : CheckpointFolder)
    (ts : String) (a : ArtifactDir) :
    (restoreFrames dir ts a).confirmed_outline = a.confirmed_outline := by
  unfold restoreFrames
  cases dir.frames <;> rfl

theorem restoreFrames_keeps_visual_script (dir : CheckpointFolder)
    (ts : String) (a : ArtifactDir) :
    (restoreFrames dir ts a).visual_script = a.visual_script := by
  unfold restoreFrames
  cases dir.frames <;> rfl

theorem restoreFrames_keeps_prompts (dir : CheckpointFolder)
    (ts : String) (a : ArtifactDir) :
    (restoreFrames dir ts a).prompts = a.prompts := by
  unfold restoreFrames
  cases dir.frames <;> rfl

theorem restoreFrames_generated_of_frames (dir : CheckpointFolder)
    (ts : String) (a : ArtifactDir) (L : List (String × Content))
    (h : dir.frames = some L) : (restoreFrames dir ts a).generated = L := by
  unfold restoreFrames
  rw [h]

/-- An artifact file that is overwritten from a checkpoint and then
overwritten back from a capture of the pre-restore live state ends at
its pre-restore content, provided the checkpoint does not hold a file
that is missing live. -/
theorem overrideFile_roundtrip (live src : Option Content)
    (h : src.isSome = true → live.isSome = true) :
    overrideFile live (overrideFile src live) = live := by
  cases live with
  | some c => rfl
  | none =>
      cases hs : src with
      | none => rfl
      | some d =>
          exfalso
          rw [hs] at h
          cases h rfl

/-- Characterization of a successful `restore_checkpoint` with
`archive_current = true`. -/
theorem restore_checkpoint_found_true (parse : Content → Option Nat)
    (s : ProjState) (cpId autoId autoTs backupTs : String) (now : Nat)
    (cp : Checkpoint) (dir : CheckpointFolder)
    (hf : (load_index s now).checkpoints.find?
      (fun c => c.checkpoint_id = cpId) = some cp)
    (hd : findFolder s.store cpId = some dir) :
    restore_checkpoint parse s cpId true autoId autoTs backupTs now
      = ({ success := true
           message := some ("Restored to checkpoint '" ++ cp.name ++ "'")
           checkpoint := some cp },
         { (create_checkpoint parse s
              ("Before restore to '" ++ cp.name ++ "'")
              "Auto-created before restore" CheckpointType.auto true
              autoId autoTs now).2 with
             artifacts := restoreFrames dir backupTs
               (restoreArtifacts dir s.artifacts) }) := by
  simp only [restore_checkpoint, hf, hd]
  rfl

/-- The live view of two stacked restores: restoring from `dirA`, then
restoring from the capture `folderB` of the pre-restore live state,
recovers the original live view under the stated side conditions. -/
theorem restore_restore_liveView (dirA folderB : CheckpointFolder)
    (a0 : ArtifactDir) (bk1 bk2 : String)
    (hwB : folderB.world_config = a0.world_config)
    (hoB : folderB.outline_variants = a0.outline_variants)
    (hcB : folderB.confirmed_outline = a0.confirmed_outline)
    (hvB : folderB.visual_script = a0.visual_script)
    (hpB : folderB.prompts = a0.prompts)
    (hfrB : folderB.frames
      = some (a0.generated.filter (fun p => !(p.1.startsWith "backups"))))
    (hw : dirA.world_config.isSome = true → a0.world_config.isSome = true)
    (ho : dirA.outline_variants.isSome = true →
      a0.outline_variants.isSome = true)
    (hc : dirA.confirmed_outline.isSome = true →
      a0.confirmed_outline.isSome = true)
    (hv : dirA.visual_script.isSome = true → a0.visual_script.isSome = true)
    (hp : dirA.prompts.isSome = true → a0.prompts.isSome = true)
    (hbk : ∀ p ∈ a0.generated, p.1.startsWith "backups" = false) :
    liveView (restoreFrames folderB bk2 (restoreArtifacts folderB
        (restoreFrames dirA bk1 (restoreArtifacts dirA a0))))
      = liveView a0 := by
  have ha1w : (restoreFrames dirA bk1 (restoreArtifacts dirA a0)).world_config
      = overrideFile dirA.world_config a0.world_config :=
    restoreFrames_keeps_world_config dirA bk1 _
  have ha1o : (restoreFrames dirA bk1 (restoreArtifacts dirA a0)).outline_variants
      = overrideFile dirA.outline_variants a0.outline_variants :=
    restoreFrames_keeps_outline_variants dirA bk1 _
  have ha1c : (restoreFrames dirA bk1 (restoreArtifacts dirA a0)).confirmed_outline
      = overrideFile dirA.confirmed_outline a0.confirmed_outline :=
    restoreFrames_keeps_confirmed_outline dirA bk1 _
  have ha1v : (restoreFrames dirA bk1 (restoreArtifacts dirA a0)).visual_script
      = overrideFile dirA.visual_script a0.visual_script :=
    restoreFrames_keeps_visual_script dirA bk1 _
  have ha1p : (restoreFrames dirA bk1 (restoreArtifacts dirA a0)).prompts
      = overrideFile dirA.prompts a0.prompts :=
    restoreFrames_keeps_prompts dirA bk1 _
  simp only [liveView, LiveView.mk.injEq]
  refine ⟨?_, ?_, ?_, ?_, ?_, ?_⟩
  · rw [restoreFrames_keeps_world_config]
    show overrideFile folderB.world_config _ = _
    rw [hwB, ha1w]
    exact overrideFile_roundtrip a0.world_config dirA.world_config hw
  · rw [restoreFrames_keeps_outline_variants]
    show overrideFile folderB.outline_variants _ = _
    rw [hoB, ha1o]
    exact overrideFile_roundtrip a0.outline_variants dirA.outline_variants ho
  · rw [restoreFrames_keeps_confirmed_outline]
    show overrideFile folderB.confirmed_outline _ = _
    rw [hcB, ha1c]
    exact overrideFile_roundtrip a0.confirmed_outline dirA.confirmed_outline hc
  · rw [restoreFrames_keeps_visual_script]
    show overrideFile folderB.visual_script _ = _
    rw [hvB, ha1v]
    exact overrideFile_roundtrip a0.visual_script dirA.visual_script hv
  · rw [restoreFrames_keeps_prompts]
    show overrideFile folderB.prompts _ = _
    rw [hpB, ha1p]
    exact overrideFile_roundtrip a0.prompts dirA.prompts hp
  · rw [restoreFrames_generated_of_frames _ _ _ _ hfrB]
    exact List.filter_eq_self.mpr (fun a ha => by rw [hbk a ha]; rfl)

/-!  Claims  -/

/-- Claim C2: the claim says every index save serializes the full
index, updates `last_updated`, and writes by the write-temp-then-rename
discipline.  The code serializes the full index and refreshes
`last_updated`, but `_save_index` performs a single in-place
`write_text` on the index path — there is no temporary file and no
rename, so the discipline the claim asserts is absent and a crash
mid-write can leave a half-written index (the spec itself flags the fix
as a correctness requirement). -/
theorem save_index_write_in_place :
    save_index_ops emptyIndex 7 =
      [ FileOp.mkdirp "checkpoints",
        FileOp.mkdirp "checkpoints/thumbnails",
        FileOp.writeFile indexFilePath
          (serializeIndex { emptyIndex with last_updated := 7 }) ] ∧
    writesDirectlyTo (save_index_ops emptyIndex 7) indexFilePath = true ∧
    usesTempThenRename (save_index_ops emptyIndex 7) indexFilePath = false := by
  refine ⟨rfl, ?_, ?_⟩ <;> decide

/-- Claim C5 (as stated) fails: with the prompts manifest absent and
one frame image copied, `create_checkpoint` records `total_frames = 0`,
not the count of copied images (1); the fallback to the copied-image
count only runs when the manifest is present but unparseable. -/
theorem total_frames_absent_manifest_counterexample :
    oneFrameState.artifacts.prompts = none ∧
    (create_checkpoint (fun _ => none) oneFrameState "v1" ""
        CheckpointType.manual true "aaaa1111" "20250101_000000" 0).1.frames_archived = 1 ∧
    (create_checkpoint (fun _ => none) oneFrameState "v1" ""
        CheckpointType.manual true "aaaa1111" "20250101_000000" 0).1.total_frames = 0 := by
  refine ⟨rfl, ?_, ?_⟩ <;> decide

/-- Claim C5 amended: `total_frames` equals the parsed manifest length
when the manifest is present and parseable, equals the count of copied
images when the manifest is present but unparseable, and equals 0 when
the manifest is absent. -/
theorem create_checkpoint_total_frames (parse : Content → Option Nat)
    (s : ProjState) (name description : String) (ctype : CheckpointType)
    (include_images : Bool) (cpId ts : String) (now : Nat) :
    (s.artifacts.prompts = none →
      (create_checkpoint parse s name description ctype include_images
        cpId ts now).1.total_frames = 0) ∧
    (∀ c, s.artifacts.prompts = some c → ∀ n, parse c = some n →
      (create_checkpoint parse s name description ctype include_images
        cpId ts now).1.total_frames = n) ∧
    (∀ c, s.artifacts.prompts = some c → parse c = none →
      (create_checkpoint parse s name description ctype include_images
        cpId ts now).1.total_frames
        = (create_checkpoint parse s name description ctype include_images
            cpId ts now).1.frames_archived) := by
  refine ⟨?_, ?_, ?_⟩
  · intro h
    simp [create_checkpoint, mkCheckpoint, h]
  · intro c h n hn
    simp [create_checkpoint, mkCheckpoint, h, hn]
  · intro c h hn
    simp [create_checkpoint, mkCheckpoint, h, hn]

/-- Witness for the amended C5 theorem at concrete inputs. -/
theorem create_checkpoint_total_frames_witness :
    oneFrameState.artifacts.prompts = none ∧
    (create_checkpoint (fun _ => some 9) oneFrameState "v" ""
      CheckpointType.manual true "id1" "ts1" 0).1.total_frames = 0 :=
  ⟨rfl,
    (create_checkpoint_total_frames (fun _ => some 9) oneFrameState "v" ""
      CheckpointType.manual true "id1" "ts1" 0).1 rfl⟩

/-- Claim C8: `create_checkpoint` never mutates the live Project
Artifact Directory — the artifact files and the live frame images (and
even the live backups) are untouched; every write goes to the
checkpoints tree, the manifest, or the index. -/
theorem create_checkpoint_no_live_mutation (parse : Content → Option Nat)
    (s : ProjState) (name description : String) (ctype : CheckpointType)
    (include_images : Bool) (cpId ts : String) (now : Nat) :
    (create_checkpoint parse s name description ctype include_images
      cpId ts now).2.artifacts = s.artifacts := rfl

/-- Claim C9: `archive_frame` on a frame whose live image does not
exist returns no version, and the resulting state differs from the
input only by the two top-level directories `_ensure_dirs` creates —
in particular the index file, the version files and the per-frame
version folders are exactly as before. -/
theorem archive_frame_missing_image (s : ProjState)
    (fid healing_notes : String) (score : Rat) (prompt vId ts : String)
    (now : Nat) (h : assocGet s.artifacts.generated fid = none) :
    archive_frame s fid healing_notes score prompt vId ts now
      = (none, { s with dirs := ensureDirs s.dirs }) := by
  unfold archive_frame
  simp [h]

/-- Witness for C9 at a concrete input. -/
theorem archive_frame_missing_image_witness :
    assocGet emptyState.artifacts.generated "1.1.cA" = none ∧
    archive_frame emptyState "1.1.cA" "notes" 0 "p" "v1" "t1" 3
      = (none, { emptyState with dirs := ensureDirs emptyState.dirs }) :=
  ⟨rfl, archive_frame_missing_image emptyState "1.1.cA" "notes" 0 "p"
    "v1" "t1" 3 rfl⟩

/-- Claim C6 (as stated) fails: with the on-disk folder present but the
Index entry absent, `delete_checkpoint` does not succeed — it returns
NotFound before touching the disk, leaving the orphan folder in place. -/
theorem delete_checkpoint_orphan_folder_counterexample :
    (findFolder orphanFolderState.store "abcd1111").isSome = true ∧
    (load_index orphanFolderState 0).checkpoints = [] ∧
    delete_checkpoint orphanFolderState "abcd1111" 0
      = ({ success := false
           error := some ("Checkpoint " ++ "abcd1111" ++ " not found") },
         orphanFolderState) := by
  refine ⟨?_, ?_, ?_⟩ <;> decide

/-- Claim C6 amended: `delete_checkpoint` succeeds exactly when the
Index entry exists.  When it does, the first matching entry is removed
from the saved index and the first folder whose name contains the id is
removed if present — so it still succeeds when the folder is absent.
When the Index entry is absent it fails NotFound and leaves the state
unchanged, even if an orphan folder exists. -/
theorem delete_checkpoint_forgiving (s : ProjState) (cpId : String)
    (now : Nat) :
    ((delete_checkpoint s cpId now).1.success = true ↔
      (load_index s now).checkpoints.any
        (fun cp => cp.checkpoint_id = cpId) = true) ∧
    ((load_index s now).checkpoints.any
        (fun cp => cp.checkpoint_id = cpId) = false →
      delete_checkpoint s cpId now
        = ({ success := false
             error := some ("Checkpoint " ++ cpId ++ " not found") }, s)) ∧
    ((load_index s now).checkpoints.any
        (fun cp => cp.checkpoint_id = cpId) = true →
      (delete_checkpoint s cpId now).2.store = removeFirstFolder s.store cpId ∧
      (delete_checkpoint s cpId now).2.indexFile
        = some { load_index s now with
                   checkpoints := (popFirst (load_index s now).checkpoints cpId).2
                   last_updated := now }) := by
  have hp := popFirst_fst (load_index s now).checkpoints cpId
  cases hfind : (load_index s now).checkpoints.find?
      (fun cp => cp.checkpoint_id = cpId) with
  | none =>
      rw [hfind] at hp
      have hany : (load_index s now).checkpoints.any
          (fun cp => cp.checkpoint_id = cpId) = false := by
        rw [← Bool.not_eq_true, List.any_eq_true]
        rintro ⟨x, hx, hpx⟩
        exact List.find?_eq_none.mp hfind x hx hpx
      refine ⟨?_, ?_, ?_⟩
      · simp [delete_checkpoint, hp, hany]
      · intro _
        simp [delete_checkpoint, hp]
      · intro hcontra
        rw [hany] at hcontra
        cases hcontra
  | some cp =>
      rw [hfind] at hp
      have hany : (load_index s now).checkpoints.any
          (fun cp => cp.checkpoint_id = cpId) = true := by
        rw [List.any_eq_true]
        have hs : ((load_index s now).checkpoints.find?
            (fun cp => cp.checkpoint_id = cpId)).isSome = true := by
          rw [hfind]
          rfl
        exact List.find?_isSome.mp hs
      refine ⟨?_, ?_, ?_⟩
      · simp [delete_checkpoint, hp, hany]
      · intro hcontra
        rw [hany] at hcontra
        cases hcontra
      · intro _
        constructor
        · simp [delete_checkpoint, hp, save_index]
        · simp [delete_checkpoint, hp, save_index]

/-- Witness for the amended C6 theorem: deleting `e1` succeeds even
though its folder is absent. -/
theorem delete_checkpoint_forgiving_witness :
    (delete_checkpoint entryOnlyState "e1" 0).1.success = true ∧
    (delete_checkpoint entryOnlyState "e1" 0).2.store
      = removeFirstFolder entryOnlyState.store "e1" := by
  have h := delete_checkpoint_forgiving entryOnlyState "e1" 0
  have hany : (load_index entryOnlyState 0).checkpoints.any
      (fun cp => cp.checkpoint_id = "e1") = true := by decide
  exact ⟨h.1.mpr hany, (h.2.2 hany).1⟩

/-- Claim C7: `restore_checkpoint` on an id absent from the Index
returns `success = false` with a NotFound error and leaves the whole
state untouched; and after a successful `delete_checkpoint` of an id
that occurred at most once, restoring that id fails NotFound. -/
theorem restore_checkpoint_unknown_id (parse : Content → Option Nat)
    (s : ProjState) (cpId : String) (archive_current : Bool)
    (autoId autoTs backupTs : String) (now now2 : Nat) :
    ((load_index s now).checkpoints.find?
        (fun cp => cp.checkpoint_id = cpId) = none →
      restore_checkpoint parse s cpId archive_current autoId autoTs backupTs now
        = ({ success := false
             error := some ("Checkpoint " ++ cpId ++ " not found") }, s)) ∧
    ((load_index s now2).checkpoints.countP
        (fun cp => cp.checkpoint_id = cpId) ≤ 1 →
      (delete_checkpoint s cpId now2).1.success = true →
      (restore_checkpoint parse (delete_checkpoint s cpId now2).2 cpId
          archive_current autoId autoTs backupTs now).1
        = { success := false
            error := some ("Checkpoint " ++ cpId ++ " not found") }) := by
  constructor
  · intro hfind
    simp [restore_checkpoint, hfind]
  · intro hcount hsucc
    have hp := popFirst_fst (load_index s now2).checkpoints cpId
    cases hfind : (load_index s now2).checkpoints.find?
        (fun cp => cp.checkpoint_id = cpId) with
    | none =>
        exfalso
        rw [hfind] at hp
        simp [delete_checkpoint, hp] at hsucc
    | some cp =>
        rw [hfind] at hp
        have hidx : ((delete_checkpoint s cpId now2).2).indexFile
            = some { load_index s now2 with
                       checkpoints :=
                         (popFirst (load_index s now2).checkpoints cpId).2
                       last_updated := now2 } := by
          simp [delete_checkpoint, hp, save_index]
        have hnone := popFirst_snd_no_match
          (load_index s now2).checkpoints cpId hcount
        have hload : load_index (delete_checkpoint s cpId now2).2 now
            = { load_index s now2 with
                  checkpoints :=
                    (popFirst (load_index s now2).checkpoints cpId).2
                  last_updated := now2 } := by
          simp [load_index, hidx]
        simp only [restore_checkpoint, hload, hnone]

/-- Claim C3: every successful `archive_frame` creates a version whose
iteration is the count of previously existing versions for that frame
plus one; and starting from a frame with no versions whose live image
exists, after any call sequence the stored iterations for that frame
are exactly `1..N` in call order with no gaps, where `N` is the number
of calls for that frame id (all of which succeed; interleaved calls for
other frame ids do not disturb the history). -/
theorem frame_version_iterations :
    (∀ (s : ProjState) (fid notes : String) (score : Rat)
        (prompt vId ts : String) (now : Nat) (v : FrameVersion),
        (archive_frame s fid notes score prompt vId ts now).1 = some v →
        v.iteration = (versionsOf s fid).length + 1) ∧
    (∀ (s : ProjState) (calls : List ArchiveCall) (fid : String),
        versionsOf s fid = [] →
        (assocGet s.artifacts.generated fid).isSome = true →
        (versionsOf (archiveRun s calls) fid).map (fun v => v.iteration)
          = List.range' 1 (calls.countP (fun c => c.frame_id = fid))) := by
  constructor
  · intro s fid notes score prompt vId ts now v hv
    exact (archive_frame_success_fields s fid notes score prompt vId ts
      now v hv).2.1
  · intro s calls fid h0 hlive
    have h := archiveRun_iterations calls s fid 0 (by rw [h0]; rfl) hlive
    simpa using h

/-- Witness for C3 at concrete inputs. -/
theorem frame_version_iterations_witness :
    versionsOf oneFrameState "1.1.cA" = [] ∧
    (versionsOf (archiveRun oneFrameState callsDemo) "1.1.cA").map
        (fun v => v.iteration)
      = List.range' 1 (callsDemo.countP (fun c => c.frame_id = "1.1.cA")) :=
  ⟨rfl, frame_version_iterations.2 oneFrameState callsDemo "1.1.cA" rfl rfl⟩

/-- Claim C4: a successful `archive_frame` immediately followed by
`restore_frame_version` of the version just created succeeds and leaves
the live frame image byte-identical to its pre-archive content. -/
theorem archive_then_restore_noop (s : ProjState) (fid : String)
    (c : Content) (notes prompt : String) (score : Rat) (vId ts : String)
    (now : Nat) (safetyVId safetyTs : String) (now2 : Nat) (v : FrameVersion)
    (himg : assocGet s.artifacts.generated fid = some c)
    (hv : (archive_frame s fid notes score prompt vId ts now).1 = some v)
    (hfresh : ∀ w ∈ versionsOf s fid, w.version_id ≠ vId) :
    (restore_frame_version (archive_frame s fid notes score prompt vId ts now).2
        fid vId safetyVId safetyTs now2).1.success = true ∧
    assocGet ((restore_frame_version
        (archive_frame s fid notes score prompt vId ts now).2
        fid vId safetyVId safetyTs now2).2).artifacts.generated fid
      = some c := by
  obtain ⟨hvid, hiter, hfile, hvers⟩ := archive_frame_success_fields
    s fid notes score prompt vId ts now v hv
  rw [himg] at hfile
  have hart := archive_frame_artifacts s fid notes score prompt vId ts now
  have hlive1 : assocGet ((archive_frame s fid notes score prompt vId ts
      now).2).artifacts.generated fid = some c := by
    rw [hart]; exact himg
  have hload : dictGet (load_index
      (archive_frame s fid notes score prompt vId ts now).2 now2).frame_versions
      fid = versionsOf s fid ++ [v] := by
    rw [versionsOf_eq_dictGet]
    exact hvers
  have hfind : (versionsOf s fid ++ [v]).find?
      (fun w => w.version_id = vId) = some v := by
    rw [List.find?_append]
    have h1 : (versionsOf s fid).find? (fun w => w.version_id = vId) = none := by
      rw [List.find?_eq_none]
      intro w hw hc
      exact hfresh w hw (by simpa using hc)
    rw [h1]
    simp [List.find?, hvid]
  have hinner := archive_frame_preserves_content
    (archive_frame s fid notes score prompt vId ts now).2 fid
    ("Before restore to v" ++ toString v.iteration) 0 "" safetyVId safetyTs
    now2 v.image_path c hfile hlive1
  simp only [restore_frame_version, hload, hfind, hfile, hinner,
    Option.getD_some]
  refine ⟨trivial, ?_⟩
  exact assocGet_assocSet_self _ fid c

/-- Witness for C4 at concrete inputs. -/
theorem archive_then_restore_noop_witness :
    assocGet oneFrameState.artifacts.generated "1.1.cA" = some "img-one" ∧
    assocGet ((restore_frame_version
        (archive_frame oneFrameState "1.1.cA" "n" 0 "p" "w1" "t1" 2).2
        "1.1.cA" "w1" "sv" "st" 3).2).artifacts.generated "1.1.cA"
      = some "img-one" :=
  ⟨rfl,
    (archive_then_restore_noop oneFrameState "1.1.cA" "img-one" "n" "p" 0
      "w1" "t1" 2 "sv" "st" 3
      (liveVersion oneFrameState "1.1.cA" "n" 0 "p" "w1" "t1" 2 "img-one")
      rfl rfl
      (fun w hw => absurd hw (List.not_mem_nil w))).2⟩

/-- Claim C10: `restore_frame_version` succeeds even when the frame's
live image is absent: the pre-restore safety archival is silently
skipped (only the two top-level directories get created), no new
`FrameVersion` is recorded, and the archived image is copied to the
live path, recreating the deleted frame. -/
theorem restore_frame_version_missing_live (s : ProjState)
    (fid vId safetyVId safetyTs : String) (now : Nat) (v : FrameVersion)
    (c : Content)
    (hlive : assocGet s.artifacts.generated fid = none)
    (hfind : (versionsOf s fid).find? (fun w => w.version_id = vId) = some v)
    (hfile : assocGet s.frameVersionFiles v.image_path = some c) :
    restore_frame_version s fid vId safetyVId safetyTs now
      = ({ success := true
           message := some ("Restored " ++ fid ++ " to version "
             ++ toString v.iteration)
           version := some v },
         { s with
             dirs := ensureDirs s.dirs
             artifacts := { s.artifacts with
               generated := assocSet s.artifacts.generated fid c } }) := by
  have hload : dictGet (load_index s now).frame_versions fid
      = versionsOf s fid := versionsOf_eq_dictGet s fid now
  have hinner := archive_frame_of_missing s fid
    ("Before restore to v" ++ toString v.iteration) 0 "" safetyVId safetyTs
    now hlive
  simp only [restore_frame_version, hload, hfind, hfile, hinner]
  simp [hfile]

/-- Witness for C10 at concrete inputs. -/
theorem restore_frame_version_missing_live_witness :
    assocGet versionOnlyState.artifacts.generated "1.1.cA" = none ∧
    restore_frame_version versionOnlyState "1.1.cA" "v7" "sv" "st" 9
      = ({ success := true
           message := some ("Restored " ++ "1.1.cA" ++ " to version "
             ++ toString c10Version.iteration)
           version := some c10Version },
         { versionOnlyState with
             dirs := ensureDirs versionOnlyState.dirs
             artifacts := { versionOnlyState.artifacts with
               generated := assocSet versionOnlyState.artifacts.generated
                 "1.1.cA" "oldimg" } }) :=
  ⟨rfl, restore_frame_version_missing_live versionOnlyState "1.1.cA" "v7"
    "sv" "st" 9 c10Version "oldimg" rfl (by decide) rfl⟩

/-- Claim C1 (as stated) fails: both restores succeed, yet the final
live state is not the state before the first restore — restoring A
creates `storyboard/prompts.json` from A's capture, and restoring the
auto "before restore" checkpoint cannot remove it, because a restore
only copies files present in the checkpoint folder and never deletes
live artifact files. -/
theorem restore_roundtrip_counterexample :
    (restore_checkpoint (fun _ => none) cexState "aaaa1111" true
        "bbbb2222" "20240102_000000" "bk1" 10).1.success = true ∧
    (restore_checkpoint (fun _ => none)
        (restore_checkpoint (fun _ => none) cexState "aaaa1111" true
          "bbbb2222" "20240102_000000" "bk1" 10).2
        "bbbb2222" true "cccc3333" "20240103_000000" "bk2" 20).1.success
      = true ∧
    liveView ((restore_checkpoint (fun _ => none)
        (restore_checkpoint (fun _ => none) cexState "aaaa1111" true
          "bbbb2222" "20240102_000000" "bk1" 10).2
        "bbbb2222" true "cccc3333" "20240103_000000" "bk2" 20).2.artifacts)
      ≠ liveView cexState.artifacts := by
  refine ⟨?_, ?_, ?_⟩ <;> decide

/-- Claim C1 amended: the round trip holds for the live view (artifact
files and live frame images) whenever every artifact file present in
checkpoint A's folder also exists live at restore time, no live frame
name starts with `backups`, and the drawn id of the auto checkpoint is
fresh (it matches no existing index entry and occurs in no existing
folder name). -/
theorem restore_roundtrip (parse : Content → Option Nat) (s : ProjState)
    (aId autoId autoTs cId cTs bkTs1 bkTs2 : String) (now1 now2 : Nat)
    (cpA : Checkpoint) (dirA : CheckpointFolder)
    (hfA : (load_index s now1).checkpoints.find?
      (fun c => c.checkpoint_id = aId) = some cpA)
    (hdA : findFolder s.store aId = some dirA)
    (hBid : ∀ cp ∈ (load_index s now1).checkpoints,
      ¬ cp.checkpoint_id = autoId)
    (hBfolder : ∀ f ∈ s.store, strContains f.name autoId = false)
    (hw : dirA.world_config.isSome = true →
      s.artifacts.world_config.isSome = true)
    (ho : dirA.outline_variants.isSome = true →
      s.artifacts.outline_variants.isSome = true)
    (hc : dirA.confirmed_outline.isSome = true →
      s.artifacts.confirmed_outline.isSome = true)
    (hv : dirA.visual_script.isSome = true →
      s.artifacts.visual_script.isSome = true)
    (hp : dirA.prompts.isSome = true → s.artifacts.prompts.isSome = true)
    (hbk : ∀ p ∈ s.artifacts.generated, p.1.startsWith "backups" = false) :
    liveView ((restore_checkpoint parse
        (restore_checkpoint parse s aId true autoId autoTs bkTs1 now1).2
        autoId true cId cTs bkTs2 now2).2.artifacts)
      = liveView s.artifacts := by
  have hA := restore_checkpoint_found_true parse s aId autoId autoTs bkTs1
    now1 cpA dirA hfA hdA
  have hidx1 : load_index
      (restore_checkpoint parse s aId true autoId autoTs bkTs1 now1).2 now2
      = { project_path := (load_index s now1).project_path
          checkpoints := (load_index s now1).checkpoints
            ++ [mkCheckpoint parse s.artifacts
                  ("Before restore to '" ++ cpA.name ++ "'")
                  "Auto-created before restore" CheckpointType.auto true
                  autoId now1]
          frame_versions := (load_index s now1).frame_versions
          last_updated := now1 } := by
    rw [hA]
    rfl
  have hstore1 : (restore_checkpoint parse s aId true autoId autoTs bkTs1
      now1).2.store
      = s.store ++ [mkFolder parse s.artifacts
          ("Before restore to '" ++ cpA.name ++ "'")
          "Auto-created before restore" CheckpointType.auto true
          autoId autoTs now1] := by
    rw [hA]
    rfl
  have hart1 : (restore_checkpoint parse s aId true autoId autoTs bkTs1
      now1).2.artifacts
      = restoreFrames dirA bkTs1 (restoreArtifacts dirA s.artifacts) := by
    rw [hA]
  have hfB : (load_index
      (restore_checkpoint parse s aId true autoId autoTs bkTs1 now1).2
      now2).checkpoints.find? (fun c => c.checkpoint_id = autoId)
      = some (mkCheckpoint parse s.artifacts
          ("Before restore to '" ++ cpA.name ++ "'")
          "Auto-created before restore" CheckpointType.auto true
          autoId now1) := by
    rw [hidx1]
    show ((load_index s now1).checkpoints ++ [_]).find? _ = _
    rw [List.find?_append]
    have h1 : (load_index s now1).checkpoints.find?
        (fun c => c.checkpoint_id = autoId) = none := by
      rw [List.find?_eq_none]
      intro x hx hc1
      exact hBid x hx (by simpa using hc1)
    rw [h1]
    simp [List.find?, mkCheckpoint_id]
  have hdB : findFolder
      (restore_checkpoint parse s aId true autoId autoTs bkTs1 now1).2.store
      autoId
      = some (mkFolder parse s.artifacts
          ("Before restore to '" ++ cpA.name ++ "'")
          "Auto-created before restore" CheckpointType.auto true
          autoId autoTs now1) := by
    rw [hstore1]
    unfold findFolder
    rw [List.find?_append]
    have h1 : s.store.find? (fun d => strContains d.name autoId) = none := by
      rw [List.find?_eq_none]
      intro f hf hc1
      rw [hBfolder f hf] at hc1
      cases hc1
    rw [h1]
    simp [List.find?, mkFolder_name, strContains_append_right]
  have hB := restore_checkpoint_found_true parse
    (restore_checkpoint parse s aId true autoId autoTs bkTs1 now1).2
    autoId cId cTs bkTs2 now2
    (mkCheckpoint parse s.artifacts
      ("Before restore to '" ++ cpA.name ++ "'")
      "Auto-created before restore" CheckpointType.auto true autoId now1)
    (mkFolder parse s.artifacts
      ("Before restore to '" ++ cpA.name ++ "'")
      "Auto-created before restore" CheckpointType.auto true autoId autoTs
      now1)
    hfB hdB
  have hfinal : (restore_checkpoint parse
      (restore_checkpoint parse s aId true autoId autoTs bkTs1 now1).2
      autoId true cId cTs bkTs2 now2).2.artifacts
      = restoreFrames
          (mkFolder parse s.artifacts
            ("Before restore to '" ++ cpA.name ++ "'")
            "Auto-created before restore" CheckpointType.auto true autoId
            autoTs now1)
          bkTs2
          (restoreArtifacts
            (mkFolder parse s.artifacts
              ("Before restore to '" ++ cpA.name ++ "'")
              "Auto-created before restore" CheckpointType.auto true autoId
              autoTs now1)
            (restoreFrames dirA bkTs1 (restoreArtifacts dirA s.artifacts))) := by
    rw [hB, hart1]
  rw [hfinal]
  exact restore_restore_liveView dirA _ s.artifacts bkTs1 bkTs2
    rfl rfl rfl rfl rfl rfl hw ho hc hv hp hbk

/-- Witness for the amended C1 theorem at concrete inputs. -/
theorem restore_roundtrip_witness :
    liveView ((restore_checkpoint (fun _ => none)
        (restore_checkpoint (fun _ => none) roundState "aaaa1111" true
          "bbbb2222" "20240102_000000" "bk1" 10).2
        "bbbb2222" true "cccc3333" "20240103_000000" "bk2" 20).2.artifacts)
      = liveView roundState.artifacts :=
  restore_roundtrip (fun _ => none) roundState "aaaa1111" "bbbb2222"
    "20240102_000000" "cccc3333" "20240103_000000" "bk1" "bk2" 10 20
    roundCpA roundDirA (by decide) (by decide) (by decide) (by decide)
    (by decide) (by decide) (by decide) (by decide) (by decide) (by decide)

/-- Witness for C7: restore of an unknown id on an empty project, and
restore of `e1` right after deleting it. -/
theorem restore_checkpoint_unknown_id_witness :
    (restore_checkpoint (fun _ => none) emptyState "zzzz" true "a1" "t1" "b1" 0
      = ({ success := false
           error := some ("Checkpoint " ++ "zzzz" ++ " not found") },
         emptyState)) ∧
    ((restore_checkpoint (fun _ => none) (delete_checkpoint entryOnlyState "e1" 5).2
        "e1" true "a1" "t1" "b1" 0).1
      = { success := false
          error := some ("Checkpoint " ++ "e1" ++ " not found") }) := by
  constructor
  · exact (restore_checkpoint_unknown_id (fun _ => none) emptyState "zzzz"
      true "a1" "t1" "b1" 0 0).1 rfl
  · exact (restore_checkpoint_unknown_id (fun _ => none) entryOnlyState "e1"
      true "a1" "t1" "b1" 0 5).2 (by decide) (by decide)

end Greenlight
